import Mathlib

/-!
Verification of the MTInversion data-preparation pipeline
(tutorial notebook `2_data_prep.ipynb`): waveform conditioning,
synthetic Green's-function orchestration, distance-file generation
and inversion-manifest construction, shallowly embedded in Lean.

Times, sampling intervals and sample values are modelled as rationals;
Python ints as integers; file contents as strings or lists of lines.
-/

namespace MTInversion

/-! ## Rounding primitives -/

/-- Python's builtin round on a real value: round half to even. -/
def pyRound (x : ℚ) : ℤ :=
  let f := ⌊x⌋
  let r := x - (f : ℚ)
  if r < 1/2 then f
  else if 1/2 < r then f + 1
  else if f % 2 = 0 then f else f + 1

/-- Nearest-sample rounding used when snapping a window endpoint to the
sample grid (`nearest_sample=True` in the library trim call); ties are
broken upward, a translation-invariant choice of the nearest sample. -/
def roundNear (x : ℚ) : ℤ := ⌊x + 1/2⌋

/-! ## Data model -/

/-- One row of the station table (`station.csv`): identity codes plus
epicentral distance, azimuth and coordinates. -/
structure Station where
  network : String
  station : String
  location : String
  channel : String
  component : String
  distance : ℚ
  azimuth : ℚ
  longitude : ℚ
  latitude : ℚ

/-- A uniformly sampled waveform trace with the SAC scalar metadata the
pipeline touches: start time, sampling interval, epicentral distance,
reference-time marker t1, time-zero marker b, origin-offset marker o. -/
structure Trace where
  start : ℚ
  delta : ℚ
  dist : ℚ
  data : List ℚ
  t1 : ℚ := 0
  b : ℚ := 0
  o : ℚ := 0

/-! ## Processing parameters (notebook cell defining filter/window values) -/

def freqmin : ℚ := 1/50
def freqmax : ℚ := 1/20
def cornersParam : ℕ := 3
def dtParam : ℚ := 1
def vredParam : ℚ := 0
def time_before : ℚ := 30
def time_after : ℚ := 200

/-! ## ReferenceTimeCalculator -/

/-- Slowness p computed once before the loop: `if vred: p = 1/vred else: p = 0`
(a zero reduction velocity is falsy in Python). -/
def pSlowness (vred : ℚ) : ℚ := if vred = 0 then 0 else 1 / vred

/-- Reference-time marker assignment from the loop body:
`tr.stats.sac.t1 = origin_time + p*(tr.stats.sac.dist)`. -/
def referenceTime (origin dist vred : ℚ) : ℚ := origin + pSlowness vred * dist

/-! ## Trim -/

/-- Modelled from the spec: the library call
`tr.trim(t1-time_before, t1+time_after, pad=True, fill_value=0)` is code of
an external library absent from src/. Per the spec's account of it, both
window endpoints are snapped to the trace's sample grid by nearest-sample
rounding and the trace is cut to exactly that index range, with samples
outside the original record zero-filled (never dropped) and the start time
moved to the snapped left endpoint. -/
def trimTrace (tr : Trace) (w1 w2 : ℚ) : Trace :=
  let i1 : ℤ := roundNear ((w1 - tr.start) / tr.delta)
  let i2 : ℤ := roundNear ((w2 - tr.start) / tr.delta)
  let n : ℤ := (tr.data.length : ℤ)
  { tr with
    start := tr.start + (i1 : ℚ) * tr.delta
    data := (List.range (i2 - i1 + 1).toNat).map (fun (k : ℕ) =>
      let idx : ℤ := i1 + (k : ℤ)
      if 0 ≤ idx ∧ idx < n then tr.data.getD idx.toNat 0 else 0) }

/-! ## TraceConditioner: the per-trace loop body

The loop first decimates and resamples the trace to sampling interval dt
(library calls; their one property used downstream is that the resulting
trace has `delta = dt`, carried as a hypothesis in the theorems). The
remaining statements of the loop body are embedded here verbatim:
set t1, trim to [t1 - time_before, t1 + time_after], scale samples by 100
(m/s to cm/s), then set b = -(origin_time - starttime) and o = 0. -/
def conditionLoopBody (vred tb ta : ℚ) (origin : ℚ) (tr : Trace) : Trace :=
  let t1 := referenceTime origin tr.dist vred
  let tr1 : Trace := { tr with t1 := t1 }
  let tr2 := trimTrace tr1 (t1 - tb) (t1 + ta)
  let tr3 : Trace := { tr2 with data := tr2.data.map (fun v => 100 * v) }
  { tr3 with b := -(origin - tr3.start), o := 0 }

/-! ## Fixed-decimal formatting (Python printf-style f conversions) -/

/-- Left-pad a digit string with zeros to the requested width. -/
def leftPadZeros (s : String) (len : ℕ) : String :=
  String.mk (List.replicate (len - s.length) '0') ++ s

/-- Python fixed-point formatting of a rational with the given precision
(the value is rounded half-to-even at the last kept decimal, the rule
Python applies when converting to a shortest correctly-rounded decimal). -/
def formatFixed (prec : ℕ) (q : ℚ) : String :=
  let scaled : ℤ := pyRound (q * (10 : ℚ) ^ prec)
  let sign := if scaled < 0 then "-" else ""
  let m := scaled.natAbs
  let ip := m / 10 ^ prec
  let fp := m % 10 ^ prec
  if prec = 0 then sign ++ toString ip
  else sign ++ toString ip ++ "." ++ leftPadZeros (toString fp) prec

/-! ## DistanceFileBuilder -/

/-- One distance-file line, from the notebook's format string
dist as .0f, dt as .2f, npts and t0 as d, vred as .1f, newline-terminated. -/
def dfileLine (dist dtq : ℚ) (npts t0 : ℤ) (vred : ℚ) : String :=
  formatFixed 0 dist ++ " " ++ formatFixed 2 dtq ++ " " ++ toString npts ++ " "
    ++ toString t0 ++ " " ++ formatFixed 1 vred ++ "\n"

/-- The distance-file body: the loop writes one formatted line per row of
the station table, in table order. -/
def buildDfile (stations : List Station) (dtq : ℚ) (npts t0 : ℤ) (vred : ℚ) :
    List String :=
  stations.map (fun row => dfileLine row.distance dtq npts t0 vred)

/-- Writing the distance file: the file is opened in write mode, so the
resulting content is the freshly built lines whatever was there before. -/
def writeDfile (prior : Option String) (stations : List Station) (dtq : ℚ)
    (npts t0 : ℤ) (vred : ℚ) : String :=
  let _ := prior
  String.join (buildDfile stations dtq npts t0 vred)

/-- Error value for the validation the spec claims the builder performs. -/
structure InvalidNptsError where
  npts : ℤ
deriving DecidableEq

/-- Power-of-two test on a Python int. -/
def isPowTwoB (n : ℤ) : Bool :=
  decide (0 < n) && (Nat.land n.toNat (n.toNat - 1) == 0)

/-- Modelled from the spec: the claimed DistanceFileBuilder contract, which
validates npts as a power of two before writing and fails with
InvalidNptsError otherwise. Absent from the source, which never checks npts. -/
def claimedBuildDfile (stations : List Station) (dtq : ℚ) (npts t0 : ℤ)
    (vred : ℚ) : Except InvalidNptsError (List String) :=
  if isPowTwoB npts then Except.ok (buildDfile stations dtq npts t0 vred)
  else Except.error ⟨npts⟩

/-! ## DepthSet -/

/-- Ascending insertion into a sorted list, the step of the sort below. -/
def insertLe (x : ℤ) : List ℤ → List ℤ
  | [] => [x]
  | y :: ys => if x ≤ y then x :: y :: ys else y :: insertLe x ys

/-- Ascending sort of an integer list (the semantics of Python's sorted
builtin on ints: ascending order, duplicates kept). -/
def pySorted (l : List ℤ) : List ℤ := l.foldr insertLe []

/-- The notebook's depth list:
depths = sorted of the literal list 10, 20, round(catalog depth). -/
def depthList (catalogDepth : ℚ) : List ℤ :=
  pySorted [10, 20, pyRound catalogDepth]

/-! ## GreenFunctionOrchestrator: external engine stages -/

/-- The four external-engine stages invoked per depth, in order. -/
inductive Stage
  | prepare
  | spectrum
  | pulse
  | demux
deriving DecidableEq

/-- The shell command issued for each stage (hprep96, hspec96, hpulse96,
f96tosac), with model name, distance-file path and depth interpolated as in
the source's format strings. -/
def stageCommand (model dfileOut : String) (depth : ℤ) : Stage → String
  | Stage.prepare => "hprep96 -M " ++ model ++ ".d -d " ++ dfileOut ++ " -HS "
      ++ formatFixed 4 (depth : ℚ) ++ " -HR 0 -EQEX"
  | Stage.spectrum => "hspec96"
  | Stage.pulse => "hpulse96 -D -i > file96"
  | Stage.demux => "f96tosac -B file96"

/-- The stage order of a depth job. -/
def engineStages : List Stage :=
  [Stage.prepare, Stage.spectrum, Stage.pulse, Stage.demux]

/-- Error value for the failure mode the spec claims the orchestrator has. -/
structure EngineError where
  stage : Stage
  exitCode : ℤ
deriving DecidableEq

/-- The per-depth engine run as written: each of the four commands is passed
to os.system (here, the world function from command string to exit code) and
the returned exit code is discarded; execution continues unconditionally. -/
def runEngineStages (world : String → ℤ) (model dfileOut : String)
    (depth : ℤ) : Except EngineError Unit :=
  let _ := engineStages.map (fun s => world (stageCommand model dfileOut depth s))
  Except.ok ()

/-- Modelled from the spec: the claimed orchestrator behavior, which checks
every stage's exit code in order and fails with ExternalEngineError carrying
the failing stage and exit code, aborting the remaining stages. Absent from
the source, which ignores the os.system return values. -/
def claimedRunEngineStages (world : String → ℤ) (model dfileOut : String)
    (depth : ℤ) : Except EngineError Unit :=
  engineStages.foldl
    (fun acc s => acc >>= fun _ =>
      let c := world (stageCommand model dfileOut depth s)
      if c = 0 then Except.ok () else Except.error ⟨s, c⟩)
    (Except.ok ())

/-- A world in which the spectrum stage exits with code 1 and every other
command succeeds. -/
def worldSpectrumFails : String → ℤ :=
  fun c => if c = "hspec96" then 1 else 0

/-! ## Green's-function file naming (the filter-and-relocate loop) -/

/-- Python slicing s with upper bound -4: all but the last four characters. -/
def pySliceDropLast4 (s : String) : String :=
  String.mk (s.toList.take (s.toList.length - 4))

/-- Python indexing s at -1: the last character, as a one-character string. -/
def pyLastCharStr (s : String) : String :=
  match s.toList.getLast? with
  | some c => String.mk [c]
  | none => ""

/-- The input path read inside the per-station, per-component filter loop:
the source interpolates outdir with slices of tr.id, where tr is the loop
variable left over from the earlier observed-data loop (its last trace); the
station row and component name in scope are not used in the path at all. -/
def sacinGreens (outdir trId : String) (_row : Station) (_grn : String) :
    String :=
  outdir ++ "/" ++ pySliceDropLast4 trId ++ "." ++ pyLastCharStr trId ++ ".dat"

/-- The output path written by the filter loop:
green_dir slash network.station.location.depth(as .4f).component. -/
def sacoutGreens (greenDir : String) (row : Station) (depth : ℤ)
    (grn : String) : String :=
  greenDir ++ "/" ++ row.network ++ "." ++ row.station ++ "." ++ row.location
    ++ "." ++ formatFixed 4 (depth : ℚ) ++ "." ++ grn

/-! ## Startup directory check -/

/-- What the startup cell does, split into observable effects. -/
structure StartupOutcome where
  dataLoaded : Bool
  messagePrinted : Bool
  errorRaised : Bool
deriving DecidableEq

/-- The startup cell: if the processed-data directory exists, the event and
station tables and waveforms are read; otherwise a diagnostic is printed and
the cell completes normally without loading anything (no exception). -/
def startupCheck (sacdirExists : Bool) : StartupOutcome :=
  if sacdirExists then
    { dataLoaded := true, messagePrinted := false, errorRaised := false }
  else
    { dataLoaded := false, messagePrinted := true, errorRaised := false }

/-! ## InversionManifestBuilder: per-station table row -/

/-- One row of the manifest's station table as assembled into df_out. -/
structure ManifestRow where
  stationId : String
  distance : ℚ
  azimuth : ℚ
  ts : ℤ
  npts : ℤ
  dt : ℚ
  used : ℤ
  longitude : ℚ
  latitude : ℚ

/-- Assembly of a manifest row from a station-table row: the station label
joins network, station and location with dots; distance, azimuth and
coordinates are copied; ts, npts and used are the hard-coded constants
30, 150 and 1; dt is the conditioning sampling interval. -/
def manifestRow (row : Station) (dtq : ℚ) : ManifestRow :=
  { stationId := row.network ++ "." ++ row.station ++ "." ++ row.location
    distance := row.distance
    azimuth := row.azimuth
    ts := 30
    npts := 150
    dt := dtq
    used := 1
    longitude := row.longitude
    latitude := row.latitude }

/-! ## Concrete fixtures for witnesses and counterexamples -/

/-- A sample station row 100 km from the epicenter. -/
def stCMB : Station :=
  { network := "BK", station := "CMB", location := "00", channel := "BHZ"
    component := "Z", distance := 100, azimuth := 45
    longitude := -120, latitude := 38 }

/-- A second sample station row, 200 km out. -/
def stMNRC : Station :=
  { network := "BK", station := "MNRC", location := "00", channel := "BHZ"
    component := "Z", distance := 200, azimuth := 90
    longitude := -122, latitude := 39 }

/-- A short sample trace at sampling interval 1 starting at time 0. -/
def trSample : Trace :=
  { start := 0, delta := 1, dist := 100, data := [1, 2, 3] }

/-! ## Theorems -/

/-- C3: with reduction velocity zero the reference time is exactly the
origin time, independent of distance; otherwise it is
origin + distance / reduction velocity. -/
theorem referenceTime_cases (origin dist vred : ℚ) :
    (vred = 0 → referenceTime origin dist vred = origin) ∧
    (vred ≠ 0 → referenceTime origin dist vred = origin + dist / vred) := by
  constructor
  · intro h
    simp [referenceTime, pSlowness, h]
  · intro h
    simp only [referenceTime, pSlowness, if_neg h]
    field_simp

/-- Witness for C3 at origin 7, distance 100, reduction velocities 0 and 4. -/
theorem referenceTime_cases_witness :
    referenceTime 7 100 0 = 7 ∧ referenceTime 7 100 4 = 7 + 100 / 4 :=
  ⟨(referenceTime_cases 7 100 0).1 rfl,
   (referenceTime_cases 7 100 4).2 (by norm_num)⟩

/-- With the notebook's window parameters (vred 0, 30 s before, 200 s after)
and a trace already resampled to interval dt = 1, the loop body always
yields exactly 231 samples, whatever the input start time, length or data. -/
lemma conditionLoopBody_len (origin : ℚ) (tr : Trace) (h : tr.delta = dtParam) :
    (conditionLoopBody vredParam time_before time_after origin tr).data.length
      = 231 := by
  have hd : tr.delta = 1 := by simpa [dtParam] using h
  simp only [conditionLoopBody, trimTrace, roundNear, referenceTime, pSlowness,
    vredParam, time_before, time_after, hd, List.length_map, List.length_range,
    if_true]
  have key : (origin + 0 * tr.dist + 200 - tr.start) / 1 + 1 / 2
      = ((origin + 0 * tr.dist - 30 - tr.start) / 1 + 1 / 2) + ((230 : ℤ) : ℚ) := by
    push_cast
    ring
  rw [key, Int.floor_add_int]
  omega

/-- C2: every trace entering the windowing step at the target sampling
interval leaves the conditioning pipeline with exactly 231 samples,
independent of its original record length. -/
theorem conditioned_length_invariant (origin : ℚ) (tr : Trace)
    (h : tr.delta = dtParam) :
    (conditionLoopBody vredParam time_before time_after origin tr).data.length
      = 231 :=
  conditionLoopBody_len origin tr h

/-- Witness for C2 on a concrete three-sample trace. -/
theorem conditioned_length_invariant_witness :
    (conditionLoopBody vredParam time_before time_after 0 trSample).data.length
      = 231 :=
  conditioned_length_invariant 0 trSample rfl

/-- C4: after trimming, the conditioned trace's time-zero marker b equals
the negative offset between the origin time and the (possibly padded) output
start time, and the origin-offset marker o equals zero. -/
theorem conditioned_markers (vred tb ta origin : ℚ) (tr : Trace) :
    (conditionLoopBody vred tb ta origin tr).b
        = -(origin - (conditionLoopBody vred tb ta origin tr).start) ∧
    (conditionLoopBody vred tb ta origin tr).o = 0 :=
  ⟨rfl, rfl⟩

/-- Evaluation of the fixed-point formatter at the concrete values the
witnesses use; rational arithmetic is evaluated by norm_num since rational
normalisation does not reduce in the kernel. -/
lemma formatFixed_100_0 : formatFixed 0 (100 : ℚ) = "100" := by
  have h : pyRound ((100 : ℚ) * (10 : ℚ) ^ (0 : ℕ)) = 100 := by
    norm_num [pyRound]
  simp only [formatFixed, h]
  decide

lemma formatFixed_1_2 : formatFixed 2 (1 : ℚ) = "1.00" := by
  have h : pyRound ((1 : ℚ) * (10 : ℚ) ^ (2 : ℕ)) = 100 := by
    norm_num [pyRound]
  simp only [formatFixed, h]
  decide

lemma formatFixed_0_1 : formatFixed 1 (0 : ℚ) = "0.0" := by
  have h : pyRound ((0 : ℚ) * (10 : ℚ) ^ (1 : ℕ)) = 0 := by
    norm_num [pyRound]
  simp only [formatFixed, h]
  decide

lemma formatFixed_10_4 : formatFixed 4 (((10 : ℤ) : ℚ)) = "10.0000" := by
  have h : pyRound (((10 : ℤ) : ℚ) * (10 : ℚ) ^ (4 : ℕ)) = 100000 := by
    norm_num [pyRound]
  simp only [formatFixed, h]
  decide

/-- The distance-file line for the 100 km sample station at dt 1, vred 0
and npts 256. -/
lemma dfileLine_stCMB_256 :
    dfileLine stCMB.distance dtParam 256 0 0 = "100 1.00 256 0 0.0\n" := by
  show dfileLine (100 : ℚ) (1 : ℚ) 256 0 0 = "100 1.00 256 0 0.0\n"
  simp only [dfileLine, formatFixed_100_0, formatFixed_1_2, formatFixed_0_1]
  decide

/-- The same line with the non-power-of-two npts 250. -/
lemma dfileLine_stCMB_250 :
    dfileLine stCMB.distance dtParam 250 0 0 = "100 1.00 250 0 0.0\n" := by
  show dfileLine (100 : ℚ) (1 : ℚ) 250 0 0 = "100 1.00 250 0 0.0\n"
  simp only [dfileLine, formatFixed_100_0, formatFixed_1_2, formatFixed_0_1]
  decide

/-- Python round of the catalog depth 13.6. -/
lemma pyRound_68_5 : pyRound (68 / 5 : ℚ) = 14 := by norm_num [pyRound]

/-- Python round of the catalog depth 10.2. -/
lemma pyRound_51_5 : pyRound (51 / 5 : ℚ) = 10 := by norm_num [pyRound]

/-- Sorting the three-element depth list splits into three cases by where
the rounded catalog depth lands relative to 10 and 20. -/
lemma pySorted_three (r : ℤ) :
    pySorted [10, 20, r]
      = if 20 ≤ r then [10, 20, r]
        else if 10 ≤ r then [10, r, 20]
        else [r, 10, 20] := by
  by_cases h1 : (20 : ℤ) ≤ r <;> by_cases h2 : (10 : ℤ) ≤ r <;>
    simp [pySorted, insertLe, h1, h2]

/-- C7 (amended): the depth list always contains the rounded catalog depth
and is ascending, but duplicates are kept, so it always has exactly three
entries; for the catalog depth 13.6 it is 10, 14, 20. -/
theorem depthList_props :
    (∀ c : ℚ, pyRound c ∈ depthList c ∧ (depthList c).Sorted (· ≤ ·) ∧
      (depthList c).length = 3) ∧
    depthList (68 / 5) = [10, 14, 20] := by
  refine ⟨fun c => ?_, ?_⟩
  · rw [depthList, pySorted_three]
    by_cases h1 : (20 : ℤ) ≤ pyRound c <;>
      by_cases h2 : (10 : ℤ) ≤ pyRound c <;>
      simp [h1, h2, List.sorted_cons] <;> omega
  · rw [depthList, pyRound_68_5, pySorted_three]
    norm_num

/-- C7 counterexample: a catalog depth rounding to 10 is not collapsed with
the fixed auxiliary depth 10 — the job list keeps the duplicate and still
has three entries. -/
theorem depthList_keeps_duplicates_cex :
    depthList (51 / 5) = [10, 10, 20] := by
  rw [depthList, pyRound_51_5, pySorted_three]
  norm_num

/-- C8: the distance-file build emits exactly one line per station, in
station-table order, each formatted by the dist/dt/npts/t0/vred format
string, and the written file content is independent of whatever content was
previously at the path (write mode, no append). -/
theorem dfile_build_props (stations : List Station) (dtq : ℚ) (npts t0 : ℤ)
    (vred : ℚ) :
    (buildDfile stations dtq npts t0 vred).length = stations.length ∧
    (∀ (d : Station) (i : ℕ), i < stations.length →
      (buildDfile stations dtq npts t0 vred).getD i ""
        = dfileLine ((stations.getD i d).distance) dtq npts t0 vred) ∧
    (∀ prior prior' : Option String,
      writeDfile prior stations dtq npts t0 vred
        = writeDfile prior' stations dtq npts t0 vred) := by
  refine ⟨by simp [buildDfile], ?_, fun _ _ => rfl⟩
  intro d i hi
  induction stations generalizing i with
  | nil => exact absurd hi (by simp)
  | cons s ss ih =>
      cases i with
      | zero => rfl
      | succ j => exact ih j (by simpa using hi)

/-- Witness for C8 on a two-station table with npts 256 and stale prior
file content. -/
theorem dfile_build_props_witness :
    (buildDfile [stCMB, stMNRC] dtParam 256 0 0).length = 2 ∧
    (buildDfile [stCMB, stMNRC] dtParam 256 0 0).getD 0 ""
      = "100 1.00 256 0 0.0\n" ∧
    writeDfile (some "stale") [stCMB, stMNRC] dtParam 256 0 0
      = writeDfile none [stCMB, stMNRC] dtParam 256 0 0 := by
  obtain ⟨h1, h2, h3⟩ := dfile_build_props [stCMB, stMNRC] dtParam 256 0 0
  refine ⟨h1, ?_, h3 (some "stale") none⟩
  rw [h2 stCMB 0 (by norm_num)]
  exact dfileLine_stCMB_256

/-- C5 counterexample: the builder performs no power-of-two validation —
with npts 250 it succeeds and writes the line, while the claimed contract
would fail with InvalidNptsError. -/
theorem dfile_npts_not_validated_cex :
    buildDfile [stCMB] dtParam 250 0 0 = ["100 1.00 250 0 0.0\n"] ∧
    claimedBuildDfile [stCMB] dtParam 250 0 0 = Except.error ⟨250⟩ := by
  constructor
  · show [dfileLine stCMB.distance dtParam 250 0 0] = _
    rw [dfileLine_stCMB_250]
  · rfl

/-- C5 (amended): building the distance file always completes, writing one
line per station, for every npts value, power of two or not. -/
theorem dfile_build_total (stations : List Station) (dtq : ℚ) (npts t0 : ℤ)
    (vred : ℚ) :
    (buildDfile stations dtq npts t0 vred).length = stations.length := by
  simp [buildDfile]

/-- C6 counterexample: in a world where the spectrum stage exits with code
1, the source's depth job still completes with no error, whereas the
claimed orchestrator contract would surface ExternalEngineError for the
spectrum stage with exit code 1. -/
theorem engine_exit_codes_ignored_cex :
    runEngineStages worldSpectrumFails "gil7" "40191336/dfile" 10
      = Except.ok () ∧
    claimedRunEngineStages worldSpectrumFails "gil7" "40191336/dfile" 10
      = Except.error ⟨Stage.spectrum, 1⟩ := by
  refine ⟨rfl, ?_⟩
  simp only [claimedRunEngineStages, engineStages, stageCommand,
    worldSpectrumFails, formatFixed_10_4, List.foldl]
  simp
  rfl

/-- C6 (amended): the orchestrator discards every stage's exit code — a
depth job completes without error for every assignment of exit codes to
the four external invocations. -/
theorem engine_run_always_ok (world : String → ℤ) (model dfileOut : String)
    (depth : ℤ) :
    runEngineStages world model dfileOut depth = Except.ok () := rfl

/-- C9 counterexample: with the processed-data directory absent, the
startup cell raises no error. -/
theorem missing_dir_no_error_cex :
    (startupCheck false).errorRaised = false := rfl

/-- C9 (amended): when the data directory is missing the startup cell
prints a diagnostic and skips loading without raising any error; when it
exists the data is loaded silently. -/
theorem startup_outcomes :
    startupCheck false
      = { dataLoaded := false, messagePrinted := true, errorRaised := false } ∧
    startupCheck true
      = { dataLoaded := true, messagePrinted := false, errorRaised := false } :=
  ⟨rfl, rfl⟩

/-- C10: every manifest station row carries the hard-coded constants
ts = 30, npts = 150 and used = 1, and this per-station npts differs from
the 231-sample conditioned trace length produced by the pipeline. -/
theorem manifest_row_constants :
    (∀ (row : Station) (dtq : ℚ),
      (manifestRow row dtq).ts = 30 ∧ (manifestRow row dtq).npts = 150 ∧
      (manifestRow row dtq).used = 1) ∧
    (∀ (row : Station) (dtq origin : ℚ) (tr : Trace), tr.delta = dtParam →
      (manifestRow row dtq).npts
        ≠ ((conditionLoopBody vredParam time_before time_after origin
            tr).data.length : ℤ)) := by
  refine ⟨fun row dtq => ⟨rfl, rfl, rfl⟩, ?_⟩
  intro row dtq origin tr h
  rw [conditionLoopBody_len origin tr h]
  norm_num [manifestRow]

/-- Witness for C10 on a concrete station row and trace. -/
theorem manifest_row_constants_witness :
    (manifestRow stCMB 1).ts = 30 ∧ (manifestRow stCMB 1).npts = 150 ∧
    (manifestRow stCMB 1).used = 1 ∧
    (manifestRow stCMB 1).npts
      ≠ ((conditionLoopBody vredParam time_before time_after 0
          trSample).data.length : ℤ) := by
  obtain ⟨h1, h2⟩ := manifest_row_constants
  exact ⟨(h1 stCMB 1).1, (h1 stCMB 1).2.1, (h1 stCMB 1).2.2,
    h2 stCMB 1 0 trSample rfl⟩

/-- C1: evaluation of the filter-and-relocate loop's file paths. The input
path read before filtering is the same string for every station row and
every Green's-function component — it interpolates only the stale observed
loop variable, so the per-(station, component) raw demux traces are never
read; with the stale trace id BK.MNRC.00.BHZ every iteration reads the last
observed trace's conditioned output file. The output path does follow the
claimed network.station.location.depth.component scheme. -/
theorem sacin_ignores_station_and_component :
    (∀ (outdir trId : String) (row row' : Station) (grn grn' : String),
      sacinGreens outdir trId row grn = sacinGreens outdir trId row' grn') ∧
    sacinGreens "40191336" "BK.MNRC.00.BHZ" stCMB "ZDD"
      = "40191336/BK.MNRC.00.Z.dat" ∧
    sacoutGreens "40191336/gil7" stCMB 10 "ZDD"
      = "40191336/gil7/BK.CMB.00.10.0000.ZDD" := by
  refine ⟨fun _ _ _ _ _ _ => rfl, by decide, ?_⟩
  simp only [sacoutGreens, stCMB, formatFixed_10_4]
  decide

end MTInversion
